import Mathlib

/-!
Shallow embedding of `src/src/chart.tsx` (topola-viewer chart component).

The repository contains two variants of the file, concatenated; where they
differ (duplicate-individual handling, the non-initial data-update dispatch)
both variants are embedded, suffixed `V1` (first variant) and `V2` (second
variant).  Pixel quantities and zoom scales are modelled as rationals;
DOM/chart side effects of one `renderChart` call are reified into a
`RenderEffects` record, and the in-place mutation of `props.data.indis`
performed by variant 1's duplicate merge is modelled by threading the array
contents (`heap`) through the deduplication loop.
-/

/-- One individual record of the dataset (`JsonIndi` from topola): a stable
id, optional family links (`fams` may be absent in the JSON, mirrored by
`Option`), optional child-of family link `famc`, and a sex field standing
for the remaining per-record payload. -/
structure JsonIndi where
  id : String
  fams : Option (List String)
  famc : Option String
  sex : Option String
deriving DecidableEq, Repr, Inhabited

/-- One family record (`JsonFam`). -/
structure JsonFam where
  id : String
deriving DecidableEq, Repr, Inhabited

/-- The dataset handed to the chart widget (`JsonGedcomData`). -/
structure JsonGedcomData where
  indis : List JsonIndi
  fams : List JsonFam
deriving DecidableEq, Repr, Inhabited

/-- JavaScript `[...new Set(l)]`: removes duplicates keeping the first
occurrence of each element, preserving insertion order. -/
def jsSetDedup (seen : List String) : List String → List String
  | [] => []
  | x :: xs =>
    if x ∈ seen then jsSetDedup seen xs else x :: jsSetDedup (x :: seen) xs

/-- Variant 1 duplicate merge (chart.tsx lines 344-348): the first-encountered
record for an id is mutated in place, its `fams` becoming the order-preserving
union with the duplicate's `fams` and its `famc` being overwritten by the
duplicate's `famc` when present (`indi.famc || existing.famc`). -/
def mergeIndis (existing indi : JsonIndi) : JsonIndi :=
  { existing with
    fams := some (jsSetDedup [] (existing.fams.getD [] ++ indi.fams.getD []))
    famc := indi.famc.elim existing.famc (fun c => some c) }

/-- State of variant 1's deduplication loop: `heap` is the current contents
of the caller's `props.data.indis` array (its objects are mutated in place),
`keys` is the insertion-ordered `Map`, mapping each id to the index of its
first-encountered record in the heap. -/
structure DedupState where
  heap : List JsonIndi
  keys : List (String × Nat)
deriving DecidableEq, Repr

/-- One iteration of variant 1's `forEach` (chart.tsx lines 340-350): a new
id is inserted into the map; the record of an already-seen id is merged into
the first-encountered record, mutating it in place. -/
def dedupStep (st : DedupState) (i : Nat) : DedupState :=
  let indi := st.heap.getD i default
  match st.keys.lookup indi.id with
  | none => { st with keys := st.keys ++ [(indi.id, i)] }
  | some j =>
    { st with heap := st.heap.set j (mergeIndis (st.heap.getD j default) indi) }

/-- Variant 1's full deduplication loop over `props.data.indis`. -/
def runDedup (indis : List JsonIndi) : DedupState :=
  (List.range indis.length).foldl dedupStep ⟨indis, []⟩

/-- Variant 1's `Array.from(uniqueIndis.values())`: the map values in
insertion order, read from the (possibly mutated) heap. -/
def filteredIndisV1 (indis : List JsonIndi) : List JsonIndi :=
  ((runDedup indis).keys).map (fun p => (runDedup indis).heap.getD p.2 default)

/-- Contents of the caller's `props.data.indis` array after variant 1's
deduplication loop ran (the loop mutates first-occurrence records in place). -/
def indisAfterDedupV1 (indis : List JsonIndi) : List JsonIndi :=
  (runDedup indis).heap

/-- Variant 2's deduplication map (chart.tsx lines 848-853): insertion-ordered
`Map` keyed by id, first occurrence wins, later duplicates ignored. -/
def uniqueIndisV2 (indis : List JsonIndi) : List (String × JsonIndi) :=
  indis.foldl
    (fun m indi =>
      if (m.lookup indi.id).isSome then m else m ++ [(indi.id, indi)]) []

/-- Variant 2's `Array.from(uniqueIndis.values())`. -/
def filteredIndisV2 (indis : List JsonIndi) : List JsonIndi :=
  (uniqueIndisV2 indis).map (fun p => p.2)

/-- Spec-side formulation of first-occurrence deduplication (from the spec's
words, for the refinement comparison with `filteredIndisV2`): keep a record
iff no earlier record carries the same id, `seen` being the ids already
encountered. -/
def firstOccAux (seen : List String) : List JsonIndi → List JsonIndi
  | [] => []
  | x :: xs =>
    if x.id ∈ seen then firstOccAux seen xs
    else x :: firstOccAux (x.id :: seen) xs

/-- Chart type selector (`ChartType` enum). -/
inductive ChartType
  | hourglass | relatives | fancy | donatso
deriving DecidableEq, Repr, Inhabited

/-- Configured color scheme (`ChartColors` from the config module). -/
inductive ChartColorsCfg
  | colored | alternate | lightGrey | white
deriving DecidableEq, Repr, Inhabited

/-- Color scheme of the external library (`ChartColors` from topola). -/
inductive TopolaChartColors
  | colored | alternate | lightGrey | white
deriving DecidableEq, Repr, Inhabited

/-- Chart strategy object produced by `getChartType` (which topola chart
class is instantiated). -/
inductive ChartStrategy
  | hourglassChart | relativesChart | fancyChart
deriving DecidableEq, Repr, Inhabited

/-- Renderer object produced by `getRendererType`. -/
inductive RendererType
  | circleRenderer | customRenderer
deriving DecidableEq, Repr, Inhabited

/-- `getChartType` (chart.tsx lines 238-249): `donatso` falls through to the
default branch. -/
def getChartType : ChartType → ChartStrategy
  | ChartType.hourglass => ChartStrategy.hourglassChart
  | ChartType.relatives => ChartStrategy.relativesChart
  | ChartType.fancy => ChartStrategy.fancyChart
  | ChartType.donatso => ChartStrategy.hourglassChart

/-- `getRendererType` (chart.tsx lines 252-259). -/
def getRendererType : ChartType → RendererType
  | ChartType.fancy => RendererType.circleRenderer
  | _ => RendererType.customRenderer

/-- The `chartColors().get` mapping (chart.tsx lines 262-272). -/
def chartColorsGet : ChartColorsCfg → TopolaChartColors
  | ChartColorsCfg.colored => TopolaChartColors.colored
  | ChartColorsCfg.alternate => TopolaChartColors.alternate
  | ChartColorsCfg.lightGrey => TopolaChartColors.lightGrey
  | ChartColorsCfg.white => TopolaChartColors.white

/-- Current selection (`IndiInfo`): individual id and generation offset. -/
structure IndiInfo where
  id : String
  generation : Option Int
deriving DecidableEq, Repr, Inhabited

/-- Props of the Chart component that `renderChart` reads (`ChartProps`).
The `onSelection` callback is an opaque function and the `hideIds`/`hideSex`
flags are only compared by the surrounding component, so they are omitted
from the embedded record. -/
structure ChartProps where
  data : JsonGedcomData
  selection : IndiInfo
  chartType : ChartType
  freezeAnimation : Bool
  colors : ChartColorsCfg
deriving DecidableEq, Repr, Inhabited

/-- Arguments of `renderChart` (`RenderArgs`). -/
structure RenderArgs where
  initialRender : Bool
  resetPosition : Bool
deriving DecidableEq, Repr, Inhabited

/-- The external chart widget handle.  Whether it exposes the optional
data-update capability (`setData`) is the one property the coordinator
probes. -/
structure ChartHandle where
  hasSetData : Bool
deriving DecidableEq, Repr, Inhabited

/-- The argument record passed to `createChart` (chart.tsx lines 355-365 /
372-382; the `indiCallback` closure is opaque and omitted). -/
structure CreateChartArgs where
  json : JsonGedcomData
  chartType : ChartStrategy
  renderer : RendererType
  svgSelector : String
  colors : TopolaChartColors
  animate : Bool
  updateSvgSize : Bool
  locale : String
deriving DecidableEq, Repr, Inhabited

/-- Chart layout result (`ChartInfo`): pixel size and origin point; the
animation-completion promise is modelled by `animationComplete` below. -/
structure ChartInfo where
  size : ℚ × ℚ
  origin : ℚ × ℚ
deriving DecidableEq, Repr, Inhabited

/-- The `#svgContainer` element as read by `calculateScaleExtent`. -/
structure ParentElement where
  clientWidth : ℚ
  clientHeight : ℚ
deriving DecidableEq, Repr, Inhabited

/-- External inputs of one `renderChart` call: viewport client size, current
zoom scale (`zoomTransform(parent).k`), the layout result returned by the
widget's `render` call, and the handle a `createChart` call would return. -/
structure RenderEnv where
  clientWidth : ℚ
  clientHeight : ℚ
  scale : ℚ
  chartInfo : ChartInfo
  newHandle : ChartHandle
deriving DecidableEq, Repr, Inhabited

/-- The SVG attribute writes of one render (chart.tsx lines 432-436):
applied immediately on initial render, else through the 200ms-delay /
500ms-duration transition. -/
structure SvgUpdate where
  immediate : Bool
  translate : ℚ × ℚ
  width : ℚ
  height : ℚ
deriving DecidableEq, Repr, Inhabited

/-- Reified chart/DOM side effects of one `renderChart` call.  `indisAfter`
is the contents of the caller's `props.data.indis` array when the call
returns (variant 1's duplicate merge mutates it in place). -/
structure RenderEffects where
  clearedDom : Bool
  createdChart : Option CreateChartArgs
  setDataCalled : Option JsonGedcomData
  renderedSelection : Option IndiInfo
  zoomScaleExtent : Option (ℚ × ℚ)
  zoomTranslateExtent : Option ((ℚ × ℚ) × (ℚ × ℚ))
  svgUpdate : Option SvgUpdate
  scrollSet : Option (ℚ × ℚ)
  scrollTween : Option (ℚ × ℚ)
  indisAfter : List JsonIndi
deriving DecidableEq, Repr, Inhabited

/-- No chart or DOM mutation: the effect record of the two early-return
paths of `renderChart`; the caller's array is left as it was. -/
def noEffects (indis : List JsonIndi) : RenderEffects :=
  { clearedDom := false
    createdChart := none
    setDataCalled := none
    renderedSelection := none
    zoomScaleExtent := none
    zoomTranslateExtent := none
    svgUpdate := none
    scrollSet := none
    scrollTween := none
    indisAfter := indis }

/-- Fields of the `ChartWrapper` instance (chart.tsx lines 307-313). -/
structure WrapperState where
  chart : Option ChartHandle
  animating : Bool
  rerenderRequired : Bool
  rerenderProps : Option ChartProps
  rerenderResetPosition : Option Bool
deriving DecidableEq, Repr, Inhabited

/-- `calculateScaleExtent` (chart.tsx lines 275-286): minimum zoom scale is
the d3 `min` of the two viewport-to-chart dimension ratios, maximum is 2.
The `scale` parameter is unused, as in the source. -/
def calculateScaleExtent (parent : ParentElement) (scale : ℚ)
    (chartInfo : ChartInfo) : ℚ × ℚ :=
  let minScale := min (parent.clientWidth / chartInfo.size.1)
    (parent.clientHeight / chartInfo.size.2)
  let maxScale : ℚ := 2
  (minScale, maxScale)

/-- The dataset handed to the chart widget: `props.data` with `indis`
replaced by the deduplicated (variant 1, merging) list. -/
def filteredDataOf (data : JsonGedcomData) : JsonGedcomData :=
  { data with indis := filteredIndisV1 data.indis }

/-- The argument record `renderChart` passes to `createChart` (chart.tsx
lines 355-365, repeated verbatim at lines 372-382). -/
def createChartArgsOf (props : ChartProps) (locale : String) :
    CreateChartArgs :=
  { json := filteredDataOf props.data
    chartType := getChartType props.chartType
    renderer := getRendererType props.chartType
    svgSelector := "#chart"
    colors := chartColorsGet props.colors
    animate := true
    updateSvgSize := false
    locale := locale }

/-- `ChartWrapper.renderChart`, variant 1 (chart.tsx lines 324-460), as a
state transition producing the new wrapper state and the reified effects.
`none` models the `TypeError` thrown by `this.chart!.render` when a
non-initial render runs with no handle constructed yet.  `env` supplies the
externally-read quantities (viewport size, current zoom scale, the layout
result of the widget's `render` call, the handle `createChart` returns). -/
def renderChart (st : WrapperState) (props : ChartProps) (locale : String)
    (args : RenderArgs) (env : RenderEnv) :
    Option (WrapperState × RenderEffects) :=
  if !args.initialRender && st.animating then
    some ({ st with
              rerenderRequired := true
              rerenderProps := some props
              rerenderResetPosition := some args.resetPosition },
          noEffects props.data.indis)
  else if !args.initialRender && props.freezeAnimation then
    some (st, noEffects props.data.indis)
  else
    let filteredData := filteredDataOf props.data
    let createArgs := createChartArgsOf props locale
    let dispatch : Option (ChartHandle × Option CreateChartArgs ×
        Option JsonGedcomData) :=
      if args.initialRender then
        some (env.newHandle, some createArgs, none)
      else
        match st.chart with
        | some h =>
          if h.hasSetData then some (h, none, some filteredData)
          else some (env.newHandle, some createArgs, none)
        | none => none
    match dispatch with
    | none => none
    | some (handle, created, setDataArg) =>
      let chartInfo := env.chartInfo
      let scale := env.scale
      let extent := calculateScaleExtent
        ⟨env.clientWidth, env.clientHeight⟩ scale chartInfo
      let dx := env.clientWidth / 2 - chartInfo.origin.1 * scale
      let dy := env.clientHeight / 2 - chartInfo.origin.2 * scale
      let offsetX := max 0 ((env.clientWidth - chartInfo.size.1 * scale) / 2)
      let offsetY := max 0 ((env.clientHeight - chartInfo.size.2 * scale) / 2)
      some ({ st with chart := some handle, animating := true },
        { clearedDom := args.initialRender
          createdChart := created
          setDataCalled := setDataArg
          renderedSelection := some props.selection
          zoomScaleExtent := some extent
          zoomTranslateExtent := some ((0, 0), chartInfo.size)
          svgUpdate := some
            { immediate := args.initialRender
              translate := (offsetX, offsetY)
              width := chartInfo.size.1 * scale
              height := chartInfo.size.2 * scale }
          scrollSet :=
            if args.resetPosition && args.initialRender then some (-dx, -dy)
            else none
          scrollTween :=
            if args.resetPosition && !args.initialRender then some (-dx, -dy)
            else none
          indisAfter := indisAfterDedupV1 props.data.indis })

/-- The continuation attached to `chartInfo.animationPromise` (chart.tsx
lines 450-459): clear the animating flag; if a rerender was stored, clear
the flag and invoke `renderChart` with the stored request (`rerenderProps!`
asserts non-null, modelled by `getD default`; `!!rerenderResetPosition` is
`getD false`). -/
def animationComplete (st : WrapperState) (locale : String)
    (env : RenderEnv) : Option (WrapperState × RenderEffects) :=
  let st1 := { st with animating := false }
  if st1.rerenderRequired then
    renderChart { st1 with rerenderRequired := false }
      (st1.rerenderProps.getD default) locale
      { initialRender := false
        resetPosition := st1.rerenderResetPosition.getD false } env
  else
    some (st1, noEffects [])

/-- Test harness: fold a sequence of non-initial render requests
(props, resetPosition) over the wrapper state, as when they all arrive while
one animation is in flight. -/
def processDuringAnimation (st : WrapperState)
    (reqs : List (ChartProps × Bool)) (locale : String) (env : RenderEnv) :
    WrapperState :=
  reqs.foldl
    (fun s r =>
      match renderChart s r.1 locale ⟨false, r.2⟩ env with
      | some (s2, _) => s2
      | none => s) st

/-- Variant 2's non-initial branch (chart.tsx line 870):
`this.chart!.setData(filteredData)` is invoked unconditionally; `none`
models the `TypeError` raised when the handle is absent or lacks the
capability.  On success the result is the dataset passed to `setData`;
no `createChart` call exists on this path. -/
def setDataCallV2 (chart : Option ChartHandle) (d : JsonGedcomData) :
    Option JsonGedcomData :=
  match chart with
  | some h => if h.hasSetData then some d else none
  | none => none

/-- The `#chartSvg` element as the export pipeline sees it: the outer
`transform` attribute (pan offset), numeric `width`/`height` attributes, and
the inner `#chart` group's `transform` attribute (zoom scale). -/
structure ChartSvgDom where
  transform : Option String
  width : ℚ
  height : ℚ
  chartGroupTransform : Option String
deriving DecidableEq, Repr, Inhabited

/-- `getStrippedSvg` (chart.tsx lines 143-157): clone the live SVG, remove
the outer transform, divide the width/height attributes by the current zoom
scale, remove the inner group's transform.  `live` is the cloned node's
state and `scale` the value of `zoomTransform(parent).k`. -/
def getStrippedSvg (live : ChartSvgDom) (scale : ℚ) : ChartSvgDom :=
  { transform := none
    width := live.width / scale
    height := live.height / scale
    chartGroupTransform := none }

/-- A serialized XML attribute value. -/
inductive AttrVal
  | num (q : ℚ)
  | str (s : String)
deriving DecidableEq, Repr

/-- Serialized form of the chart SVG (`XMLSerializer.serializeToString`
restricted to the attributes the export pipeline manipulates): the outer
element's attribute list and the inner `#chart` group's attribute list. -/
structure XmlSvg where
  attrs : List (String × AttrVal)
  chartAttrs : List (String × AttrVal)
deriving DecidableEq, Repr

/-- Serialize a chart SVG DOM element to its attribute lists. -/
def serializeSvg (svg : ChartSvgDom) : XmlSvg :=
  { attrs :=
      (match svg.transform with
        | some t => [("transform", AttrVal.str t)]
        | none => []) ++
      [("width", AttrVal.num svg.width), ("height", AttrVal.num svg.height)]
    chartAttrs :=
      match svg.chartGroupTransform with
      | some t => [("transform", AttrVal.str t)]
      | none => [] }

/-- Re-parse a serialized chart SVG back into its DOM form; fails if the
numeric width/height attributes are missing. -/
def parseSvg (x : XmlSvg) : Option ChartSvgDom :=
  match x.attrs.lookup "width", x.attrs.lookup "height" with
  | some (AttrVal.num w), some (AttrVal.num h) =>
    some
      { transform :=
          match x.attrs.lookup "transform" with
          | some (AttrVal.str t) => some t
          | _ => none
        width := w
        height := h
        chartGroupTransform :=
          match x.chartAttrs.lookup "transform" with
          | some (AttrVal.str t) => some t
          | _ => none }
  | _, _ => none

/-- An `<image>` element inside the chart SVG; `href` is
`image.href.baseVal` (the empty string when unset, which JavaScript treats
as falsy). -/
structure SvgImage where
  href : String
deriving DecidableEq, Repr, Inhabited

/-- `inlineImage` (chart.tsx lines 79-92).  `fetchDataUrl` abstracts the
`fetch`/`blob`/`loadAsDataUrl` sequence inside the `try` block: `some d`
when it yields a data URL, `none` when any step throws.  Returns the image
after the call and whether the failure warning was logged (the `catch`
branch ran). -/
def inlineImage (fetchDataUrl : String → Option String) (image : SvgImage) :
    SvgImage × Bool :=
  if image.href = "" then (image, false)
  else
    match fetchDataUrl image.href with
    | some dataUrl => ({ image with href := dataUrl }, false)
    | none => (image, true)

/-- `inlineImages` (chart.tsx lines 99-102): every `<image>` of the snapshot
is attempted independently (`Promise.all` over the map); the result is
defined once each image has been attempted. -/
def inlineImages (fetchDataUrl : String → Option String)
    (images : List SvgImage) : List SvgImage :=
  images.map (fun image => (inlineImage fetchDataUrl image).1)

/-- Serialization of the image elements of a snapshot
(`XMLSerializer.serializeToString` restricted to them); total, so it
succeeds whatever the inlining left in place. -/
def serializeImages (images : List SvgImage) : String :=
  String.join (images.map (fun image => "<image href=" ++ image.href ++ "/>"))

/-- Settlement of a JavaScript promise: resolved with a value, rejected, or
never settled (no handler ever calls `resolve`/`reject`). -/
inductive POutcome (α : Type)
  | resolved (a : α)
  | rejected
  | pending
deriving DecidableEq, Repr

/-- `await`: sequencing of promise outcomes. -/
def pbind {α β : Type} : POutcome α → (α → POutcome β) → POutcome β
  | POutcome.resolved a, f => f a
  | POutcome.rejected, _ => POutcome.rejected
  | POutcome.pending, _ => POutcome.pending

/-- Terminal event of a `FileReader.readAsDataURL` call: a `load` event
carrying the result, or an `error` event. -/
inductive ReaderEvent
  | load (result : String)
  | error
deriving DecidableEq, Repr

/-- `loadAsDataUrl` (chart.tsx lines 71-77): the executor registers only
`reader.onload`, which resolves with the result; no error handler is
registered and `reject` is never called, so an `error` event leaves the
promise forever pending. -/
def loadAsDataUrl : ReaderEvent → POutcome String
  | ReaderEvent.load result => POutcome.resolved result
  | ReaderEvent.error => POutcome.pending

/-- A decoded bitmap image (`HTMLImageElement`). -/
structure HTMLImage where
  width : ℚ
  height : ℚ
deriving DecidableEq, Repr, Inhabited

/-- Terminal event of an image decode: a `load` event with the decoded
image, or a decode error. -/
inductive ImageEvent
  | load (image : HTMLImage)
  | error
deriving DecidableEq, Repr

/-- `loadImage` (chart.tsx lines 105-111): only a `load` listener is added,
resolving with the image; no error listener exists and `reject` is never
called, so a decode error leaves the promise forever pending. -/
def loadImage : ImageEvent → POutcome HTMLImage
  | ImageEvent.load image => POutcome.resolved image
  | ImageEvent.error => POutcome.pending

/-- An encoded binary blob. -/
structure Blob where
  mime : String
  payload : String
deriving DecidableEq, Repr, Inhabited

/-- `canvasToBlob` (chart.tsx lines 130-140): the `canvas.toBlob` callback
receives the browser's encoding result (`none` models a null blob); a null
blob rejects the promise, a non-null one resolves it. -/
def canvasToBlob : Option Blob → POutcome Blob
  | some blob => POutcome.resolved blob
  | none => POutcome.rejected

/-- The awaited tail of `downloadPng`/`downloadPdf` (chart.tsx lines
185-202) after the SVG contents are produced: decode the SVG blob into an
image (`loadImage`, settled by `imageEvent`), draw it on a canvas, encode
the canvas (`canvasToBlob`, with the browser producing `canvasResult`); the
outcome is the blob handed to `saveAs`. -/
def downloadRasterOutcome (imageEvent : ImageEvent)
    (canvasResult : Option Blob) : POutcome Blob :=
  pbind (loadImage imageEvent) (fun _ => canvasToBlob canvasResult)

/-! Concrete fixtures used by the witness and counterexample theorems. -/

/-- A first record with id I1. -/
def indiA : JsonIndi := ⟨"I1", some ["F1"], none, some "M"⟩

/-- A duplicate record with the same id I1 and different fields. -/
def indiB : JsonIndi := ⟨"I1", some ["F2"], some "F9", some "F"⟩

/-- A record with a distinct id. -/
def indiC : JsonIndi := ⟨"I2", some ["F1"], none, none⟩

/-- Props without duplicates, freeze off. -/
def propsW : ChartProps :=
  ⟨⟨[indiA, indiC], [⟨"F1"⟩]⟩, ⟨"I1", some 0⟩, ChartType.hourglass, false,
    ChartColorsCfg.colored⟩

/-- Same props with another selection (a distinct later request). -/
def propsW2 : ChartProps := { propsW with selection := ⟨"I2", none⟩ }

/-- Props with the freeze flag set. -/
def propsFreezeW : ChartProps := { propsW with freezeAnimation := true }

/-- A render environment: 800x600 viewport, scale 1, a 400x300 chart with
origin (200,150), `createChart` returning a handle with `setData`. -/
def envW : RenderEnv := ⟨800, 600, 1, ⟨(400, 300), (200, 150)⟩, ⟨true⟩⟩

/-- Idle wrapper holding a handle with the data-update capability. -/
def stIdleW : WrapperState := ⟨some ⟨true⟩, false, false, none, none⟩

/-- Idle wrapper holding a handle without the data-update capability. -/
def stNoSetW : WrapperState := ⟨some ⟨false⟩, false, false, none, none⟩

/-- Wrapper with an animation in flight. -/
def stAnimW : WrapperState := ⟨some ⟨true⟩, true, false, none, none⟩

/-- Claim C5: for a chart of logical size (W,H) in a viewport of client size
(w,h), the zoom scale extent installed on the gesture handler is
[min(w/W, h/H), 2]. -/
theorem claim5_zoom_scale_extent (st : WrapperState) (props : ChartProps)
    (locale : String) (r : Bool) (env : RenderEnv)
    (hW : 0 < env.chartInfo.size.1) (hH : 0 < env.chartInfo.size.2) :
    calculateScaleExtent ⟨env.clientWidth, env.clientHeight⟩ env.scale
        env.chartInfo
      = (min (env.clientWidth / env.chartInfo.size.1)
          (env.clientHeight / env.chartInfo.size.2), 2)
    ∧ (renderChart st props locale ⟨true, r⟩ env).map
        (fun x => x.2.zoomScaleExtent)
      = some (some (min (env.clientWidth / env.chartInfo.size.1)
          (env.clientHeight / env.chartInfo.size.2), 2)) := by
  constructor
  · rfl
  · simp [renderChart, calculateScaleExtent]

/-- Witness for C5: 800x600 viewport, 400x300 chart, extent [min(2,2), 2]. -/
theorem claim5_witness :
    (0 : ℚ) < envW.chartInfo.size.1 ∧ (0 : ℚ) < envW.chartInfo.size.2
    ∧ calculateScaleExtent ⟨envW.clientWidth, envW.clientHeight⟩ envW.scale
        envW.chartInfo
      = (min (envW.clientWidth / envW.chartInfo.size.1)
          (envW.clientHeight / envW.chartInfo.size.2), 2) := by
  refine ⟨by norm_num [envW], by norm_num [envW], ?_⟩
  exact (claim5_zoom_scale_extent stIdleW propsW "en" true envW
    (by norm_num [envW]) (by norm_num [envW])).1

/-- Claim C10: `loadAsDataUrl` and `loadImage` have no rejection path — an
error event leaves them forever pending — so a raster export whose
intermediate SVG fails to decode never settles, and a rejected export can
only come from `canvasToBlob`. -/
theorem claim10_loaders_never_reject :
    (∀ ev, loadAsDataUrl ev ≠ POutcome.rejected)
    ∧ (∀ ev, loadImage ev ≠ POutcome.rejected)
    ∧ loadAsDataUrl ReaderEvent.error = POutcome.pending
    ∧ loadImage ImageEvent.error = POutcome.pending
    ∧ (∀ c, downloadRasterOutcome ImageEvent.error c = POutcome.pending)
    ∧ (∀ img b, downloadRasterOutcome (ImageEvent.load img) (some b)
        = POutcome.resolved b)
    ∧ (∀ img, downloadRasterOutcome (ImageEvent.load img) none
        = POutcome.rejected)
    ∧ (∀ ev c, downloadRasterOutcome ev c = POutcome.rejected →
        canvasToBlob c = POutcome.rejected) := by
  refine ⟨?_, ?_, rfl, rfl, fun c => rfl, fun img b => rfl, fun img => rfl, ?_⟩
  · intro ev; cases ev <;> simp [loadAsDataUrl]
  · intro ev; cases ev <;> simp [loadImage]
  · intro ev c hrej
    cases ev with
    | load img => simpa [downloadRasterOutcome, loadImage, pbind] using hrej
    | error => simp [downloadRasterOutcome, loadImage, pbind] at hrej

/-- Witness for C10: a decode error leaves the PNG/PDF export pending; a
null canvas blob after a successful decode rejects it. -/
theorem claim10_witness :
    loadAsDataUrl ReaderEvent.error = POutcome.pending
    ∧ downloadRasterOutcome ImageEvent.error none = POutcome.pending
    ∧ downloadRasterOutcome (ImageEvent.load ⟨10, 10⟩) none
      = POutcome.rejected := by
  exact ⟨claim10_loaders_never_reject.2.2.1,
    claim10_loaders_never_reject.2.2.2.2.1 none,
    claim10_loaders_never_reject.2.2.2.2.2.2.1 ⟨10, 10⟩⟩

/-- Claim C8: image inlining is best-effort and failure-isolating — each
image is attempted independently, a failed fetch is logged and leaves that
image unmodified, the others are still inlined, the result covers every
image, and serialization of the result is always defined. -/
theorem claim8_inline_images_best_effort
    (fetchDataUrl : String → Option String) (images : List SvgImage) :
    (inlineImages fetchDataUrl images).length = images.length
    ∧ (∀ i : Nat, (inlineImages fetchDataUrl images)[i]? =
        (images[i]?).map (fun image => (inlineImage fetchDataUrl image).1))
    ∧ (∀ (i : Nat) (image : SvgImage), images[i]? = some image →
        image.href ≠ "" → fetchDataUrl image.href = none →
        (inlineImages fetchDataUrl images)[i]? = some image
        ∧ (inlineImage fetchDataUrl image).2 = true)
    ∧ (∀ (i : Nat) (image : SvgImage) (d : String), images[i]? = some image →
        image.href ≠ "" → fetchDataUrl image.href = some d →
        (inlineImages fetchDataUrl images)[i]? = some ⟨d⟩)
    ∧ (∃ s, serializeImages (inlineImages fetchDataUrl images) = s) := by
  refine ⟨by simp [inlineImages],
    fun i => by simp [inlineImages, List.getElem?_map], ?_, ?_, ⟨_, rfl⟩⟩
  · intro i image hi hhref hfail
    refine ⟨?_, by simp [inlineImage, hhref, hfail]⟩
    simp [inlineImages, List.getElem?_map, hi, inlineImage, hhref, hfail]
  · intro i image d hi hhref hok
    simp [inlineImages, List.getElem?_map, hi, inlineImage, hhref, hok]

/-- Fetch oracle failing on exactly one of three URLs. -/
def fetchW : String → Option String :=
  fun s => if s = "u2" then none else some ("data:" ++ s)

/-- Three image references, the middle one destined to fail. -/
def imagesW : List SvgImage := [⟨"u1"⟩, ⟨"u2"⟩, ⟨"u3"⟩]

/-- Witness for C8: among three images with one failing fetch, the failing
one is kept as-is and logged, the two others are inlined. -/
theorem claim8_witness :
    (inlineImages fetchW imagesW).length = imagesW.length
    ∧ (inlineImages fetchW imagesW)[1]? = some ⟨"u2"⟩
    ∧ (inlineImage fetchW ⟨"u2"⟩).2 = true
    ∧ (inlineImages fetchW imagesW)[0]? = some ⟨"data:u1"⟩
    ∧ (inlineImages fetchW imagesW)[2]? = some ⟨"data:u3"⟩ := by
  have h := claim8_inline_images_best_effort fetchW imagesW
  have h2 := h.2.2.1 1 ⟨"u2"⟩ (by decide) (by decide) (by decide)
  have h0 := h.2.2.2.1 0 ⟨"u1"⟩ "data:u1" (by decide) (by decide) (by decide)
  have h3 := h.2.2.2.1 2 ⟨"u3"⟩ "data:u3" (by decide) (by decide) (by decide)
  exact ⟨h.1, h2.1, h2.2, h0, h3⟩

/-- Claim C3 (amended): a non-initial freeze-flagged call is a complete
no-op — state unchanged, slot untouched, no chart or DOM effect — provided
no animation is in flight (the animating check precedes the freeze check). -/
theorem claim3_freeze_noop_when_idle (st : WrapperState) (props : ChartProps)
    (locale : String) (r : Bool) (env : RenderEnv)
    (hfreeze : props.freezeAnimation = true) (hanim : st.animating = false) :
    renderChart st props locale ⟨false, r⟩ env
      = some (st, noEffects props.data.indis) := by
  simp [renderChart, hanim, hfreeze]

/-- Witness for C3: an idle wrapper drops a freeze-flagged request. -/
theorem claim3_witness :
    propsFreezeW.freezeAnimation = true ∧ stIdleW.animating = false
    ∧ renderChart stIdleW propsFreezeW "en" ⟨false, true⟩ envW
      = some (stIdleW, noEffects propsFreezeW.data.indis) :=
  ⟨rfl, rfl, claim3_freeze_noop_when_idle stIdleW propsFreezeW "en" true envW
    rfl rfl⟩

/-- Counterexample for C3 as stated: while an animation is in flight, a
non-initial call whose props carry the freeze flag is not dropped — it is
stored into the pending-rerender slot, because the animating check runs
before the freeze check. -/
theorem claim3_counterexample :
    propsFreezeW.freezeAnimation = true
    ∧ stAnimW.animating = true
    ∧ (renderChart stAnimW propsFreezeW "en" ⟨false, true⟩ envW).map
        (fun x => (x.1.rerenderRequired, x.1.rerenderProps))
      = some (true, some propsFreezeW) := by
  decide

/-- Serializing a chart SVG element and re-parsing it recovers the element. -/
theorem parseSvg_serializeSvg (svg : ChartSvgDom) :
    parseSvg (serializeSvg svg) = some svg := by
  obtain ⟨t, w, h, ct⟩ := svg
  cases t <;> cases ct <;> rfl

/-- Claim C6: for a live SVG whose width/height attributes hold the
on-screen size (natural size times zoom scale k), the export snapshot drops
the outer transform and the inner scale transform and divides width/height
by k; serializing and re-parsing the snapshot yields the natural size,
independent of k. -/
theorem claim6_export_roundtrip (naturalW naturalH k : ℚ) (t ct : Option String)
    (hk : k ≠ 0) :
    getStrippedSvg ⟨t, naturalW * k, naturalH * k, ct⟩ k
      = ⟨none, naturalW, naturalH, none⟩
    ∧ parseSvg (serializeSvg
        (getStrippedSvg ⟨t, naturalW * k, naturalH * k, ct⟩ k))
      = some ⟨none, naturalW, naturalH, none⟩ := by
  have h1 : getStrippedSvg ⟨t, naturalW * k, naturalH * k, ct⟩ k
      = ⟨none, naturalW, naturalH, none⟩ := by
    simp [getStrippedSvg, mul_div_cancel_right₀, hk]
  exact ⟨h1, by rw [h1]; exact parseSvg_serializeSvg _⟩

/-- Witness for C6: a 400x300 chart at zoom scale 2 (on-screen 800x600)
exports at 400x300. -/
theorem claim6_witness :
    (2 : ℚ) ≠ 0
    ∧ getStrippedSvg ⟨some "translate(10, 20)", 400 * 2, 300 * 2,
        some "scale(2)"⟩ 2 = ⟨none, 400, 300, none⟩
    ∧ parseSvg (serializeSvg (getStrippedSvg ⟨some "translate(10, 20)",
        400 * 2, 300 * 2, some "scale(2)"⟩ 2))
      = some ⟨none, 400, 300, none⟩ := by
  have h := claim6_export_roundtrip 400 300 2 (some "translate(10, 20)")
    (some "scale(2)") (by norm_num)
  exact ⟨by norm_num, h.1, h.2⟩

/-- Claim C4 (amended, variant 1): on a non-initial render with an existing
handle, a handle exposing `setData` is invoked with the deduplicated dataset
and kept; a handle lacking it is replaced through `createChart` with exactly
the argument record of the initial path. -/
theorem claim4_update_capability_dispatch (st : WrapperState)
    (props : ChartProps) (locale : String) (r : Bool) (env : RenderEnv)
    (h : ChartHandle) (hanim : st.animating = false)
    (hfreeze : props.freezeAnimation = false) (hchart : st.chart = some h) :
    (h.hasSetData = true →
      (renderChart st props locale ⟨false, r⟩ env).map
          (fun x => (x.1.chart, x.2.setDataCalled, x.2.createdChart))
        = some (some h, some (filteredDataOf props.data), none))
    ∧ (h.hasSetData = false →
      (renderChart st props locale ⟨false, r⟩ env).map
          (fun x => (x.1.chart, x.2.createdChart, x.2.setDataCalled))
        = some (some env.newHandle, some (createChartArgsOf props locale),
            none)
      ∧ (renderChart st props locale ⟨true, r⟩ env).map
          (fun x => x.2.createdChart)
        = some (some (createChartArgsOf props locale))) := by
  refine ⟨fun hcap => ?_, fun hcap => ⟨?_, ?_⟩⟩ <;>
    simp [renderChart, hanim, hfreeze, hchart, hcap]

/-- Witness for C4: a handle with `setData` receives the deduplicated data;
a handle without it is rebuilt with the initial-path arguments. -/
theorem claim4_witness :
    (renderChart stIdleW propsW "en" ⟨false, true⟩ envW).map
        (fun x => (x.1.chart, x.2.setDataCalled, x.2.createdChart))
      = some (some ⟨true⟩, some (filteredDataOf propsW.data), none)
    ∧ (renderChart stNoSetW propsW "en" ⟨false, true⟩ envW).map
        (fun x => (x.1.chart, x.2.createdChart, x.2.setDataCalled))
      = some (some envW.newHandle, some (createChartArgsOf propsW "en"),
          none) := by
  refine ⟨?_, ?_⟩
  · exact (claim4_update_capability_dispatch stIdleW propsW "en" true envW
      ⟨true⟩ rfl rfl rfl).1 rfl
  · exact ((claim4_update_capability_dispatch stNoSetW propsW "en" true envW
      ⟨false⟩ rfl rfl rfl).2 rfl).1

/-- Counterexample for C4 as stated: variant 2 (chart.tsx line 870) calls
`setData` unconditionally on the existing handle; with a handle lacking the
capability the call raises a TypeError (`none`) and no new handle is ever
constructed on that path. -/
theorem claim4_counterexample :
    (ChartHandle.mk false).hasSetData = false
    ∧ setDataCallV2 (some ⟨false⟩) propsW.data = none := by
  decide

/-- A non-initial call made while `animating` is true only stores the
request into the slot (overwriting it) and produces no effect. -/
theorem renderChart_during_animation (st : WrapperState) (p : ChartProps)
    (locale : String) (r : Bool) (env : RenderEnv)
    (h : st.animating = true) :
    renderChart st p locale ⟨false, r⟩ env
      = some ({ st with
                  rerenderRequired := true
                  rerenderProps := some p
                  rerenderResetPosition := some r },
              noEffects p.data.indis) := by
  simp [renderChart, h]

/-- Processing one more request while animating just overwrites the slot. -/
theorem processDuringAnimation_cons (st : WrapperState)
    (q : ChartProps × Bool) (qs : List (ChartProps × Bool)) (locale : String)
    (env : RenderEnv) (h : st.animating = true) :
    processDuringAnimation st (q :: qs) locale env
      = processDuringAnimation
          { st with
              rerenderRequired := true
              rerenderProps := some q.1
              rerenderResetPosition := some q.2 } qs locale env := by
  simp [processDuringAnimation,
    renderChart_during_animation st q.1 locale q.2 env h]

/-- Claim C1: requests arriving while an animation is in flight are
coalesced into the single pending-rerender slot with last-write-wins and no
DOM effect; on animation completion the slot is cleared and `renderChart` is
invoked exactly once, with the most recently stored request. -/
theorem claim1_pending_rerender_coalesced (st : WrapperState)
    (reqs rest : List (ChartProps × Bool)) (p : ChartProps) (r : Bool)
    (locale : String) (env : RenderEnv) (hanim : st.animating = true)
    (hreqs : reqs = rest ++ [(p, r)]) :
    (∀ (s : WrapperState) (q : ChartProps) (b : Bool), s.animating = true →
      renderChart s q locale ⟨false, b⟩ env
        = some ({ s with
                    rerenderRequired := true
                    rerenderProps := some q
                    rerenderResetPosition := some b },
                noEffects q.data.indis))
    ∧ processDuringAnimation st reqs locale env
        = { st with
              rerenderRequired := true
              rerenderProps := some p
              rerenderResetPosition := some r }
    ∧ animationComplete (processDuringAnimation st reqs locale env) locale env
        = renderChart
            { st with
                animating := false
                rerenderRequired := false
                rerenderProps := some p
                rerenderResetPosition := some r }
            p locale ⟨false, r⟩ env := by
  subst hreqs
  have hmid : ∀ (rest2 : List (ChartProps × Bool)) (s : WrapperState),
      s.animating = true →
      processDuringAnimation s (rest2 ++ [(p, r)]) locale env
        = { s with
              rerenderRequired := true
              rerenderProps := some p
              rerenderResetPosition := some r } := by
    intro rest2
    induction rest2 with
    | nil =>
      intro s hs
      rw [List.nil_append, processDuringAnimation_cons s (p, r) [] locale env hs]
      rfl
    | cons q qs ih =>
      intro s hs
      rw [List.cons_append, processDuringAnimation_cons s q _ locale env hs]
      exact ih _ hs
  refine ⟨fun s q b hs => renderChart_during_animation s q locale b env hs,
    hmid rest st hanim, ?_⟩
  rw [hmid rest st hanim]
  rfl

/-- Witness for C1: two requests during one animation; the second overwrites
the first in the slot, and completion re-invokes `renderChart` with it. -/
theorem claim1_witness :
    stAnimW.animating = true
    ∧ processDuringAnimation stAnimW [(propsW, true), (propsW2, false)]
        "en" envW
      = { stAnimW with
            rerenderRequired := true
            rerenderProps := some propsW2
            rerenderResetPosition := some false }
    ∧ animationComplete
        (processDuringAnimation stAnimW [(propsW, true), (propsW2, false)]
          "en" envW) "en" envW
      = renderChart
          { stAnimW with
              animating := false
              rerenderRequired := false
              rerenderProps := some propsW2
              rerenderResetPosition := some false }
          propsW2 "en" ⟨false, false⟩ envW := by
  have h := claim1_pending_rerender_coalesced stAnimW
    [(propsW, true), (propsW2, false)] [(propsW, true)] propsW2 false
    "en" envW rfl rfl
  exact ⟨rfl, h.2.1, h.2.2⟩

/-- Claim C7: an initial render with resetPosition=true sets the scroll
offsets synchronously to center the origin at the current scale
(scrollLeft = origin_x*scale - clientWidth/2, scrollTop = origin_y*scale -
clientHeight/2); any render with resetPosition=false performs no scroll
write and schedules no scroll tween. -/
theorem claim7_reset_position_scroll (st : WrapperState) (props : ChartProps)
    (locale : String) (env : RenderEnv) :
    (renderChart st props locale ⟨true, true⟩ env).map
        (fun x => (x.2.scrollSet, x.2.scrollTween))
      = some (some (env.chartInfo.origin.1 * env.scale - env.clientWidth / 2,
          env.chartInfo.origin.2 * env.scale - env.clientHeight / 2), none)
    ∧ ∀ b : Bool, (renderChart st props locale ⟨b, false⟩ env).elim True
        (fun x => x.2.scrollSet = none ∧ x.2.scrollTween = none) := by
  constructor
  · simp [renderChart, neg_sub]
  · intro b
    cases b with
    | true => simp [renderChart, noEffects]
    | false =>
      cases hst : st.animating with
      | true => simp [renderChart, hst, noEffects]
      | false =>
        cases hf : props.freezeAnimation with
        | true => simp [renderChart, hst, hf, noEffects]
        | false =>
          cases hc : st.chart with
          | none => simp [renderChart, hst, hf, hc]
          | some h =>
            cases hcap : h.hasSetData <;>
              simp [renderChart, hst, hf, hc, hcap, noEffects]

/-- Witness for C7: in the 800x600 viewport at scale 1 with origin
(200,150), the initial reset scrolls to (-200,-150); without resetPosition
nothing scroll-related happens. -/
theorem claim7_witness :
    (renderChart stIdleW propsW "en" ⟨true, true⟩ envW).map
        (fun x => (x.2.scrollSet, x.2.scrollTween))
      = some (some (envW.chartInfo.origin.1 * envW.scale - envW.clientWidth / 2,
          envW.chartInfo.origin.2 * envW.scale - envW.clientHeight / 2), none)
    ∧ (renderChart stIdleW propsW "en" ⟨false, false⟩ envW).elim True
        (fun x => x.2.scrollSet = none ∧ x.2.scrollTween = none) := by
  have h := claim7_reset_position_scroll stIdleW propsW "en" envW
  exact ⟨h.1, h.2 false⟩

/-- Membership in the JavaScript-Set deduplication: an element appears in
`jsSetDedup seen l` iff it occurs in `l` and is not already in `seen`. -/
theorem mem_jsSetDedup (x : String) :
    ∀ (l seen : List String), x ∈ jsSetDedup seen l ↔ x ∈ l ∧ x ∉ seen := by
  intro l
  induction l with
  | nil => intro seen; simp [jsSetDedup]
  | cons y ys ih =>
    intro seen
    by_cases hy : y ∈ seen
    · rw [jsSetDedup, if_pos hy, ih]
      constructor
      · rintro ⟨hx, hns⟩; exact ⟨List.mem_cons_of_mem _ hx, hns⟩
      · rintro ⟨hx, hns⟩
        rcases List.mem_cons.mp hx with rfl | hx2
        · exact absurd hy hns
        · exact ⟨hx2, hns⟩
    · rw [jsSetDedup, if_neg hy]
      constructor
      · intro hmem
        rcases List.mem_cons.mp hmem with rfl | hx2
        · exact ⟨List.mem_cons_self _ _, hy⟩
        · obtain ⟨h1, h2⟩ := (ih (y :: seen)).mp hx2
          refine ⟨List.mem_cons_of_mem _ h1, fun c => h2 (List.mem_cons_of_mem _ c)⟩
      · rintro ⟨hx, hns⟩
        rcases List.mem_cons.mp hx with rfl | hx2
        · exact List.mem_cons_self _ _
        · by_cases hxy : x = y
          · subst hxy; exact List.mem_cons_self _ _
          · refine List.mem_cons_of_mem _ ((ih (y :: seen)).mpr ⟨hx2, ?_⟩)
            intro c
            rcases List.mem_cons.mp c with h3 | h3
            · exact hxy h3
            · exact hns h3

/-- Running variant 1's deduplication loop on a two-element array of
duplicates merges the second record into the first, in place. -/
theorem runDedup_pair (a b : JsonIndi) (hid : b.id = a.id) :
    runDedup [a, b] = ⟨[mergeIndis a b, b], [(a.id, 0)]⟩ := by
  have hrange : List.range 2 = [0, 1] := rfl
  rw [runDedup]
  simp only [List.length_cons, List.length_nil, hrange, List.foldl_cons,
    List.foldl_nil]
  rw [dedupStep]
  simp only [List.getD, List.lookup]
  rw [dedupStep]
  simp [List.lookup, hid, List.getD, List.set]

/-- Claim C9: the merging variant's deduplication mutates the caller's
input in place — after a `renderChart` call with duplicate records, the
first-encountered record inside `props.data.indis` has its family-link
fields overwritten with the merged values, so `renderChart` is not
side-effect-free on the dataset passed to it. -/
theorem claim9_dedup_mutates_input (a b : JsonIndi) (famsList : List JsonFam)
    (sel : IndiInfo) (ct : ChartType) (cc : ChartColorsCfg)
    (st : WrapperState) (locale : String) (r : Bool) (env : RenderEnv)
    (hid : b.id = a.id) :
    indisAfterDedupV1 [a, b] = [mergeIndis a b, b]
    ∧ (renderChart st ⟨⟨[a, b], famsList⟩, sel, ct, false, cc⟩ locale
        ⟨true, r⟩ env).map (fun x => x.2.indisAfter)
      = some [mergeIndis a b, b]
    ∧ ∀ f, f ∈ b.fams.getD [] → f ∉ a.fams.getD [] → mergeIndis a b ≠ a := by
  have h1 : indisAfterDedupV1 [a, b] = [mergeIndis a b, b] := by
    rw [indisAfterDedupV1, runDedup_pair a b hid]
  refine ⟨h1, ?_, ?_⟩
  · simp [renderChart, h1]
  · intro f hf hnf heq
    have hfams : (mergeIndis a b).fams = a.fams := by rw [heq]
    rw [mergeIndis] at hfams
    have hmem : f ∈ jsSetDedup [] (a.fams.getD [] ++ b.fams.getD []) := by
      refine (mem_jsSetDedup f _ []).mpr ⟨List.mem_append_right _ hf, ?_⟩
      simp
    cases ha : a.fams with
    | none => rw [ha] at hfams; exact Option.noConfusion hfams
    | some l =>
      rw [ha] at hfams hmem hnf
      have hl : jsSetDedup [] (l ++ b.fams.getD []) = l := by
        simpa using hfams
      simp only [Option.getD_some] at hmem hnf
      rw [hl] at hmem
      exact hnf hmem

/-- Witness for C9: merging duplicate I1 records overwrites the first
record's family links in the caller's array, so the array changes. -/
theorem claim9_witness :
    indiB.id = indiA.id
    ∧ indisAfterDedupV1 [indiA, indiB] = [mergeIndis indiA indiB, indiB]
    ∧ "F2" ∈ indiB.fams.getD [] ∧ "F2" ∉ indiA.fams.getD []
    ∧ mergeIndis indiA indiB ≠ indiA := by
  have h := claim9_dedup_mutates_input indiA indiB [] ⟨"I1", none⟩
    ChartType.hourglass ChartColorsCfg.colored stIdleW "en" true envW rfl
  exact ⟨rfl, h.1, by decide, by decide, h.2.2 "F2" (by decide) (by decide)⟩

/-- A lookup in an association list succeeds iff the key occurs. -/
theorem lookup_isSome_mem (a : String) :
    ∀ m : List (String × JsonIndi),
      ((m.lookup a).isSome = true) ↔ a ∈ m.map Prod.fst := by
  intro m
  induction m with
  | nil => simp [List.lookup]
  | cons p ps ih =>
    obtain ⟨k, v⟩ := p
    by_cases h : a = k
    · subst h; simp [List.lookup]
    · have hbeq : (a == k) = false := beq_eq_false_iff_ne.mpr h
      simp only [List.lookup, hbeq, List.map_cons, List.mem_cons]
      rw [ih]
      simp [h]

/-- `firstOccAux` only depends on the membership of the seen set. -/
theorem firstOccAux_congr : ∀ (xs : List JsonIndi) (s1 s2 : List String),
    (∀ a, a ∈ s1 ↔ a ∈ s2) → firstOccAux s1 xs = firstOccAux s2 xs := by
  intro xs
  induction xs with
  | nil => intro s1 s2 h; rfl
  | cons x l ih =>
    intro s1 s2 h
    by_cases hx : x.id ∈ s1
    · rw [firstOccAux, firstOccAux, if_pos hx, if_pos ((h x.id).mp hx)]
      exact ih s1 s2 h
    · rw [firstOccAux, firstOccAux, if_neg hx,
        if_neg (fun c => hx ((h x.id).mpr c))]
      exact congrArg (x :: ·) (ih _ _ (fun a => by simp [h a]))

/-- Unrolling variant 2's deduplication fold: the accumulated map's values
followed by the first occurrences among the remaining records whose ids are
not already keys. -/
theorem uniqueIndisV2_fold : ∀ (xs : List JsonIndi)
    (m : List (String × JsonIndi)),
    ((xs.foldl (fun m indi =>
        if (m.lookup indi.id).isSome then m
        else m ++ [(indi.id, indi)]) m).map Prod.snd)
      = m.map Prod.snd ++ firstOccAux (m.map Prod.fst) xs := by
  intro xs
  induction xs with
  | nil => intro m; simp [firstOccAux]
  | cons x l ih =>
    intro m
    rw [List.foldl_cons]
    by_cases h : ((m.lookup x.id).isSome = true)
    · rw [if_pos h, ih, firstOccAux, if_pos ((lookup_isSome_mem x.id m).mp h)]
    · rw [if_neg h, ih, firstOccAux,
        if_neg (fun c => h ((lookup_isSome_mem x.id m).mpr c))]
      simp only [List.map_append, List.map_cons, List.map_nil,
        List.append_assoc, List.singleton_append]
      congr 1
      exact congrArg (x :: ·)
        (firstOccAux_congr l _ _ (fun a => by simp [or_comm]))

/-- Variant 2's deduplication equals the spec's first-occurrence filter. -/
theorem filteredIndisV2_eq (indis : List JsonIndi) :
    filteredIndisV2 indis = firstOccAux [] indis := by
  have h := uniqueIndisV2_fold indis []
  simpa [filteredIndisV2, uniqueIndisV2] using h

/-- Filtering a first-occurrence-deduplicated list by an id keeps at most
the first record carrying it. -/
theorem firstOccAux_filter (idv : String) :
    ∀ (xs : List JsonIndi) (seen : List String),
      (firstOccAux seen xs).filter (fun i => i.id == idv)
        = if idv ∈ seen then []
          else (xs.filter (fun i => i.id == idv)).take 1 := by
  intro xs
  induction xs with
  | nil => intro seen; simp [firstOccAux]
  | cons x l ih =>
    intro seen
    by_cases hx : x.id ∈ seen
    · rw [firstOccAux, if_pos hx, ih]
      by_cases hi : idv ∈ seen
      · rw [if_pos hi, if_pos hi]
      · have hxid : ¬(x.id == idv) = true := by
          intro hc; exact hi (beq_iff_eq.mp hc ▸ hx)
        rw [if_neg hi, if_neg hi, List.filter_cons, if_neg (by simp [hxid])]
    · rw [firstOccAux, if_neg hx]
      by_cases hi : idv ∈ seen
      · have hxid : ¬(x.id == idv) = true := by
          intro hc; exact hx (beq_iff_eq.mp hc ▸ hi)
        rw [if_pos hi, List.filter_cons, if_neg (by simp [hxid]), ih,
          if_pos (List.mem_cons_of_mem _ hi)]
      · by_cases hxi : x.id = idv
        · rw [List.filter_cons, if_pos (by simp [hxi]), ih,
            if_pos (by rw [← hxi]; exact List.mem_cons_self _ _),
            if_neg hi, List.filter_cons, if_pos (by simp [hxi])]
          rfl
        · have hxid : ¬(x.id == idv) = true := by
            intro hc; exact hxi (beq_iff_eq.mp hc)
          have hnotmem : idv ∉ x.id :: seen := by
            intro hc
            rcases List.mem_cons.mp hc with hc2 | hc2
            · exact hxi hc2.symm
            · exact hi hc2
          rw [List.filter_cons, if_neg (by simp [hxid]), ih,
            if_neg hnotmem, if_neg hi, List.filter_cons,
            if_neg (by simp [hxid])]

/-- Claim C2 (amended, variant 2): deduplication retains exactly one record
per id, the first-encountered one; later duplicates are discarded. -/
theorem claim2_dedup_first_wins (indis : List JsonIndi) (idv : String)
    (x : JsonIndi) (xs : List JsonIndi)
    (hocc : indis.filter (fun i => i.id == idv) = x :: xs) :
    filteredIndisV2 indis = firstOccAux [] indis
    ∧ (filteredIndisV2 indis).filter (fun i => i.id == idv) = [x] := by
  refine ⟨filteredIndisV2_eq indis, ?_⟩
  rw [filteredIndisV2_eq, firstOccAux_filter idv indis [],
    if_neg (List.not_mem_nil idv), hocc]
  rfl

/-- Witness for C2: of three records with two sharing id I1, exactly the
first I1 record survives variant 2's deduplication. -/
theorem claim2_witness :
    [indiA, indiB, indiC].filter (fun i => i.id == "I1") = indiA :: [indiB]
    ∧ (filteredIndisV2 [indiA, indiB, indiC]).filter (fun i => i.id == "I1")
      = [indiA] := by
  refine ⟨by decide,
    (claim2_dedup_first_wins [indiA, indiB, indiC] "I1" indiA [indiB]
      (by decide)).2⟩

/-- Counterexample for C2 as stated: in variant 1 the later duplicate's
fields are not silently lost — its family links are merged into the
retained record, which therefore differs from the first-encountered one. -/
theorem claim2_counterexample :
    filteredIndisV1 [indiA, indiB]
      = [⟨"I1", some ["F1", "F2"], some "F9", some "M"⟩]
    ∧ filteredIndisV1 [indiA, indiB] ≠ [indiA]
    ∧ (⟨"I1", some ["F1", "F2"], some "F9", some "M"⟩ : JsonIndi).fams
      ≠ indiA.fams := by
  decide
